import Mathlib

/-!
A verification development for the pipeline trajectory forecaster
(`NewPipelineTrajectoryAnalyzer` and `BacktestAnalyzer`).

The TypeScript source is shallowly embedded: timestamps are modelled as
integers (milliseconds since the Unix epoch, as returned by
`Date.prototype.getTime`), JS floating-point amounts parsed from decimal
text are modelled as rationals, and the irrational operations
(`Math.pow` with fractional exponent, `Math.sqrt`) are modelled over the
reals via `Real.rpow` and `Real.sqrt`.  JS objects used as maps are
modelled as association lists that preserve insertion order, matching the
enumeration order of string-keyed JS objects; `Array.prototype.sort` is
modelled by a stable insertion sort, matching the ECMAScript requirement
that `sort` is stable.
-/

/- The Batteries rational operations are `@[irreducible]`, which blocks
`decide`-style evaluation of the model on concrete inputs; restore the
default reducibility locally so that concrete pipeline states can be
computed inside proofs. -/
attribute [local semireducible] Rat.add Rat.sub Rat.mul Rat.inv
  Rat.ofScientific

namespace Forecaster

open List (Perm)
open scoped List

/-! ### UTC calendar arithmetic (model of the JS `Date` built-ins)

JS `Date` semantics needed by the source: `Date.UTC` (with its
normalization of out-of-range month arguments and the mapping of year
arguments 0..99 to 1900..1999), `getTime`, `getUTCFullYear`,
`getUTCMonth`, and `toISOString`-derived keys.  The civil-calendar
conversions use the standard era-based algorithms on integers. -/

/-- Milliseconds in a UTC day. -/
def msPerDay : Int := 86400000

/-- Days from the epoch (1970-01-01) to the civil date `y-m-d`
(`m` is 1..12). -/
def daysFromCivil (y m d : Int) : Int :=
  let y := y - (if m ≤ 2 then 1 else 0)
  let era := (if 0 ≤ y then y else y - 399).fdiv 400
  let yoe := y - era * 400
  let mp := (m + 9).emod 12
  let doy := (153 * mp + 2).fdiv 5 + d - 1
  let doe := yoe * 365 + yoe.fdiv 4 - yoe.fdiv 100 + doy
  era * 146097 + doe - 719468

/-- Civil date `(y, m, d)` of the day `z` days after the epoch. -/
def civilFromDays (z : Int) : Int × Int × Int :=
  let z := z + 719468
  let era := z.fdiv 146097
  let doe := z - era * 146097
  let yoe := (doe - doe.fdiv 1460 + doe.fdiv 36524 - doe.fdiv 146096).fdiv 365
  let y := yoe + era * 400
  let doy := doe - (365 * yoe + yoe.fdiv 4 - yoe.fdiv 100)
  let mp := (5 * doy + 2).fdiv 153
  let d := doy - (153 * mp + 2).fdiv 5 + 1
  let m := mp + (if mp < 10 then 3 else -9)
  (y + (if m ≤ 2 then 1 else 0), m, d)

/-- Timestamp (ms) of `y`/`monthIdx`/`day` `h:mi:s.ms` UTC, without the
two-digit-year remapping; `monthIdx` is 0-based and may be out of range
(it is normalized into the year, as JS does), and `day` may be out of
range as well (day 0 is the last day of the preceding month). -/
def epochMs (y monthIdx day h mi s ms : Int) : Int :=
  let ym := y * 12 + monthIdx
  (daysFromCivil (ym.fdiv 12) (ym.emod 12 + 1) 1 + (day - 1)) * msPerDay
    + h * 3600000 + mi * 60000 + s * 1000 + ms

/-- Model of `Date.UTC(y, monthIdx, day, h, mi, s, ms)`: year arguments
0..99 denote 1900..1999. -/
def dateUTC (y monthIdx day h mi s ms : Int) : Int :=
  epochMs (if 0 ≤ y ∧ y ≤ 99 then y + 1900 else y) monthIdx day h mi s ms

/-- The epoch day containing timestamp `t` (model of truncating a
`toISOString` to its date part). -/
def msToDays (t : Int) : Int := t.fdiv msPerDay

/-- Model of `Date.prototype.getUTCFullYear`. -/
def getUTCFullYear (t : Int) : Int := (civilFromDays (msToDays t)).1

/-- Model of `Date.prototype.getUTCMonth` (0-based month index). -/
def getUTCMonthIdx (t : Int) : Int := (civilFromDays (msToDays t)).2.1 - 1

/-- `Math.ceil (a / b)` for integers `a`, `b` with `b > 0` (the source
divides millisecond differences by `1000*60*60*24` and applies
`Math.ceil`). -/
def ceilDiv (a b : Int) : Int := -((-a).fdiv b)

/-- The decimal digit character of `n mod 10`. -/
def digitChar (n : Int) : Char := Char.ofNat (48 + (n.emod 10).toNat)

/-- A numeral as two zero-padded digits (months are 1..12). -/
def pad2 (n : Int) : List Char := [digitChar (n.fdiv 10), digitChar n]

/-- A year as four zero-padded digits (`toISOString` years 0..9999;
expanded-year notation is outside the model). -/
def pad4 (n : Int) : List Char :=
  [digitChar (n.fdiv 1000), digitChar (n.fdiv 100),
   digitChar (n.fdiv 10), digitChar n]

/-- The `YYYY-MM` month key of a timestamp: model of
`date.toISOString().substring(0, 7)`. -/
def monthKeyOfMs (t : Int) : String :=
  ⟨pad4 (getUTCFullYear t) ++ '-' :: pad2 (getUTCMonthIdx t + 1)⟩

/-! ### Model of the JS text-parsing built-ins

`parseInt`, `parseFloat` and `new Date(string)` are modelled on the
input shapes the pipeline feeds them: decimal digit strings (with
optional sign and fraction) and ISO-8601 UTC date/time strings.  Inputs
outside these shapes are mapped to `none` (JS `NaN` / Invalid Date).
String operations are implemented structurally on character lists. -/

/-- Split a character list at every occurrence of `sep` (model of
`String.prototype.split` with a single-character separator). -/
def splitChar (sep : Char) : List Char → List (List Char)
  | [] => [[]]
  | c :: cs =>
      if c = sep then [] :: splitChar sep cs
      else
        match splitChar sep cs with
        | [] => [[c]]
        | p :: ps => (c :: p) :: ps

/-- Split a string at every occurrence of the character `sep`. -/
def strSplit (s : String) (sep : Char) : List String :=
  (splitChar sep s.data).map (fun l => ⟨l⟩)

/-- JS whitespace for `trim` (the forms occurring in CSV text). -/
def isJsSpace (c : Char) : Bool :=
  c = ' ' ∨ c = '\t' ∨ c = '\n' ∨ c = '\r'

/-- Model of `String.prototype.trim`. -/
def jsTrim (s : String) : String :=
  ⟨((s.data.dropWhile isJsSpace).reverse.dropWhile isJsSpace).reverse⟩

/-- Model of `s.includes(c)` for a single character. -/
def strContains (s : String) (c : Char) : Bool :=
  s.data.any (· = c)

/-- Lexicographic comparison of character lists (JS string `<`). -/
def charLt : List Char → List Char → Bool
  | [], [] => false
  | [], _ :: _ => true
  | _ :: _, [] => false
  | a :: as, b :: bs =>
      if a < b then true else if b < a then false else charLt as bs

/-- Model of the JS string comparison `a <= b`. -/
def strLe (a b : String) : Bool := ! charLt b.data a.data

/-- Model of `s.substring(a, b)`. -/
def strSub (s : String) (a b : Nat) : String :=
  ⟨(s.data.take b).drop a⟩

/-- The longest leading run of decimal digits of a character list. -/
def leadingDigits : List Char → List Char
  | [] => []
  | c :: cs => if c.isDigit then c :: leadingDigits cs else []

/-- Value of a list of decimal digits. -/
def digitsVal (l : List Char) : Nat :=
  l.foldl (fun acc c => acc * 10 + (c.toNat - 48)) 0

/-- Model of `parseInt(s)`: skip leading whitespace, then take the
longest signed decimal digit run; `none` when there is none (JS `NaN`).
Radix prefixes are outside the model. -/
def jsParseInt (s : String) : Option Int :=
  match s.data.dropWhile isJsSpace with
  | '-' :: cs =>
      let ds := leadingDigits cs
      if ds.isEmpty then none else some (-(digitsVal ds : Int))
  | '+' :: cs =>
      let ds := leadingDigits cs
      if ds.isEmpty then none else some ((digitsVal ds : Int))
  | cs =>
      let ds := leadingDigits cs
      if ds.isEmpty then none else some ((digitsVal ds : Int))

/-- Fractional value of a digit list read after a decimal point. -/
def fracVal (l : List Char) : ℚ :=
  l.foldr (fun c acc => ((c.toNat - 48 : ℕ) + acc) / 10) 0

/-- Model of `parseFloat(s)` on plain decimal notation
`[±]digits[.digits]` after leading whitespace (the only shape amounts
take after stripping `$` and `,`); `none` when no digits are found
(JS `NaN`).  Exponent notation is not modelled. -/
def jsParseFloat (s : String) : Option ℚ :=
  let core : List Char → Option ℚ := fun cs =>
    let intPart := leadingDigits cs
    let rest := cs.drop intPart.length
    match rest with
    | '.' :: cs' =>
        let frPart := leadingDigits cs'
        if intPart.isEmpty ∧ frPart.isEmpty then none
        else some ((digitsVal intPart : ℚ) + fracVal frPart)
    | _ => if intPart.isEmpty then none else some ((digitsVal intPart : ℚ))
  match s.data.dropWhile isJsSpace with
  | '-' :: cs => (core cs).map (fun q => -q)
  | '+' :: cs => core cs
  | cs => core cs

/-- `s.replace(/[,\$]/g, '')`. -/
def stripAmountChars (s : String) : String :=
  ⟨s.data.filter (fun c => c ≠ ',' ∧ c ≠ '$')⟩

/-- Number of days in civil month `y-m`. -/
def daysInMonth (y m : Int) : Int :=
  daysFromCivil y (m + 1) 1 - daysFromCivil y m 1

/-- Is this a list of exactly `n` decimal digits? -/
def isDigits (n : Nat) (l : List Char) : Bool :=
  l.length = n ∧ l.all (·.isDigit)

/-- The numeric value of an all-digit character list. -/
def digitsInt (l : List Char) : Int := (digitsVal l : Int)

/-- Parse the `hh:mm:ss[.sss]` part of an ISO time. -/
def parseIsoTime (timePart : List Char) : Option Int :=
  match splitChar ':' timePart with
  | [hh, mm, ssfrac] =>
      let (ss, msStr) :=
        match splitChar '.' ssfrac with
        | [a, b] => (a, b)
        | _ => (ssfrac, [ '0', '0', '0' ])
      if isDigits 2 hh ∧ isDigits 2 mm ∧ isDigits 2 ss ∧ isDigits 3 msStr
          ∧ digitsInt hh < 24 ∧ digitsInt mm < 60 ∧ digitsInt ss < 60 then
        some (digitsInt hh * 3600000 + digitsInt mm * 60000
          + digitsInt ss * 1000 + digitsInt msStr)
      else none
  | [hh, mm] =>
      if isDigits 2 hh ∧ isDigits 2 mm
          ∧ digitsInt hh < 24 ∧ digitsInt mm < 60 then
        some (digitsInt hh * 3600000 + digitsInt mm * 60000)
      else none
  | _ => none

/-- Parse the `YYYY[-MM[-DD]]` part of an ISO date to `(y, m, d)`. -/
def parseIsoDate (datePart : List Char) : Option (Int × Int × Int) :=
  match splitChar '-' datePart with
  | [ys] =>
      if isDigits 4 ys then some (digitsInt ys, 1, 1) else none
  | [ys, ms] =>
      if isDigits 4 ys ∧ isDigits 2 ms ∧ 1 ≤ digitsInt ms
          ∧ digitsInt ms ≤ 12 then
        some (digitsInt ys, digitsInt ms, 1)
      else none
  | [ys, ms, ds] =>
      if isDigits 4 ys ∧ isDigits 2 ms ∧ isDigits 2 ds
          ∧ 1 ≤ digitsInt ms ∧ digitsInt ms ≤ 12
          ∧ 1 ≤ digitsInt ds
          ∧ digitsInt ds ≤ daysInMonth (digitsInt ys) (digitsInt ms) then
        some (digitsInt ys, digitsInt ms, digitsInt ds)
      else none
  | _ => none

/-- Model of `new Date(s).getTime()` for ISO-8601 UTC strings
(`YYYY`, `YYYY-MM`, `YYYY-MM-DD`, optionally followed by
`Thh:mm[:ss[.sss]]Z`); all other inputs give `none` (Invalid Date).
Date-only forms denote UTC midnight, as in ECMAScript. -/
def jsParseDate (s : String) : Option Int :=
  match splitChar 'T' s.data with
  | [datePart] =>
      (parseIsoDate datePart).map (fun (y, m, d) =>
        daysFromCivil y m d * msPerDay)
  | [datePart, timeZ] =>
      match parseIsoDate datePart with
      | none => none
      | some (y, m, d) =>
          if timeZ.getLast? = some 'Z' then
            (parseIsoTime timeZ.dropLast).map (fun t =>
              daysFromCivil y m d * msPerDay + t)
          else none
  | _ => none

/-- Model of `new Date(monthKey + "-01T00:00:00.000Z").getTime()`
without building the concatenated string: for a key free of `T`, the
appended string has date part `monthKey ++ "-01"` and time part
midnight UTC, so it parses exactly when `monthKey ++ "-01"` is a valid
ISO date; a key containing `T` makes the concatenation invalid. -/
def monthKeyToMs (k : String) : Option Int :=
  if strContains k 'T' then none
  else
    (parseIsoDate (k.data ++ [ '-', '0', '1' ])).map (fun ymd =>
      daysFromCivil ymd.1 ymd.2.1 ymd.2.2 * msPerDay)

/-! ### Data model (`src/types/new-pipeline.ts`) -/

/-- A raw CSV row as delivered by the CSV parser (`RawCSVRow`).  A
missing field is modelled by the empty string (falsy, like JS
`undefined`). -/
structure RawCSVRow where
  snapShotTime : String
  date : String
  totalAmount : String
  stage : String
deriving DecidableEq

/-- `ProcessedRow`: a validated observation.  Dates are timestamps in
ms; amounts are the exact rationals denoted by the decimal text. -/
structure ProcessedRow where
  snapshotDate : Int
  closingMonth : Int
  daysBeforeClose : Int
  amount : ℚ
  stage : String
  weightedAmount : ℚ
deriving DecidableEq

/-- `AggregatedSnapshot`: one aggregated point of a month trajectory. -/
structure AggregatedSnapshot where
  snapshotDate : Int
  daysBeforeClose : Int
  rawPipeline : ℚ
  weightedPipeline : ℚ
deriving DecidableEq

/-- `MonthData`: a JS object keyed by `YYYY-MM` month keys, modelled as
an insertion-ordered association list. -/
def MonthData : Type := List (String × List AggregatedSnapshot)

instance : DecidableEq MonthData := by unfold MonthData; infer_instance

/-- Lookup in a JS-object association list (`obj[key]`, `undefined`
becomes `none`). -/
def objGet {κ α : Type} [DecidableEq κ] (m : List (κ × α)) (k : κ) :
    Option α :=
  (m.find? (fun e => e.1 = k)).map (·.2)

/-- `DailyGrowthRate`: one day of a growth-rate curve.  Rates are real
(they arise from fractional powers). -/
structure DailyGrowthRate where
  daysBefore : Int
  rate : ℝ

/-- An actual closing value `{raw, weighted}`. -/
structure ClosingValue where
  raw : ℚ
  weighted : ℚ
deriving DecidableEq

/-! ### RecordParser (`processRawData`, part_001 lines 63-107) -/

/-- `STAGE_WEIGHTS`: the fixed stage-weight table. -/
def STAGE_WEIGHTS : List (String × ℚ) :=
  [("FUNDED", 1), ("READY_FOR_FUNDING", 95 / 100),
   ("CONDITION_FULFILLMENT", 75 / 100), ("APPROVED", 60 / 100)]

/-- The closing-date parse of `processRawData` (lines 73-79): if the
trimmed text splits on `/` (when it contains one) or `-` into exactly 3
parts, build `Date.UTC(part2, part0 - 1, part1)` — i.e. the parts are
read as `MM/DD/YYYY` regardless of which separator matched; otherwise
fall back to `new Date(text)`.  `none` models an invalid date. -/
def parseClosingDate (dateStr : String) : Option Int :=
  let dateParts :=
    if strContains dateStr '/' then strSplit dateStr '/'
    else strSplit dateStr '-'
  if dateParts.length = 3 then
    match jsParseInt (dateParts.getD 0 ""), jsParseInt (dateParts.getD 1 ""),
        jsParseInt (dateParts.getD 2 "") with
    | some p0, some p1, some p2 => some (dateUTC p2 (p0 - 1) p1 0 0 0 0)
    | _, _, _ => none
  else jsParseDate dateStr

/-- The last instant of the month containing the closing date `cd`:
`Date.UTC(year, month + 1, 0, 23, 59, 59, 999)`. -/
def lastDayOfMonthMs (cd : Int) : Int :=
  dateUTC (getUTCFullYear cd) (getUTCMonthIdx cd + 1) 0 23 59 59 999

/-- The body of the `processRawData` row map: parse and validate a raw
row, `none` modelling the dropped-row `null`. -/
def processRow (row : RawCSVRow) : Option ProcessedRow :=
  if row.snapShotTime = "" ∨ row.date = "" ∨ row.totalAmount = ""
      ∨ row.stage = "" then none
  else
    match jsParseDate (jsTrim row.snapShotTime) with
    | none => none
    | some snapshotDate =>
        match parseClosingDate (jsTrim row.date) with
        | none => none
        | some closingMonthDate =>
            let closingYear := getUTCFullYear closingMonthDate
            if closingYear ≠ 2025 then none
            else
              let daysBeforeClose :=
                ceilDiv (lastDayOfMonthMs closingMonthDate - snapshotDate)
                  msPerDay
              if daysBeforeClose > 89 ∨ daysBeforeClose < -5 then none
              else
                match jsParseFloat (stripAmountChars row.totalAmount) with
                | none => none
                | some amount =>
                    let stage := jsTrim row.stage
                    let weight := ((objGet STAGE_WEIGHTS stage).getD 0)
                    some {
                      snapshotDate := snapshotDate
                      closingMonth := closingMonthDate
                      daysBeforeClose := daysBeforeClose
                      amount := amount
                      stage := stage
                      weightedAmount := amount * weight }

/-- `processRawData`: map `processRow` over the rows and drop the
`null`s. -/
def processRawData (rows : List RawCSVRow) : List ProcessedRow :=
  rows.filterMap processRow

/-! ### JS map/array helpers -/

/-- Update the value at `k` (preserving its position) or append
`(k, f dflt)`: models the JS object read-modify-write idiom
`if (!obj[k]) obj[k] = dflt; f(obj[k])`. -/
def objUpsert {κ α : Type} [DecidableEq κ]
    (m : List (κ × α)) (k : κ) (dflt : α) (f : α → α) : List (κ × α) :=
  match m with
  | [] => [(k, f dflt)]
  | (k', v) :: rest =>
      if k' = k then (k', f v) :: rest else (k', v) :: objUpsert rest k dflt f

/-- Set `obj[k] = v` (replace in place, or append when absent). -/
def objSet {κ α : Type} [DecidableEq κ]
    (m : List (κ × α)) (k : κ) (v : α) : List (κ × α) :=
  match m with
  | [] => [(k, v)]
  | (k', v') :: rest =>
      if k' = k then (k', v) :: rest else (k', v') :: objSet rest k v

/-- Stable insertion into a sorted list: `a` goes before the first
element `b` with `le a b`. -/
def insertSorted {α : Type} (le : α → α → Bool) (a : α) : List α → List α
  | [] => [a]
  | b :: l => if le a b then a :: b :: l else b :: insertSorted le a l

/-- Stable sort (model of `Array.prototype.sort`, which ECMAScript
requires to be stable): `le a b` means `a` may stay before `b`. -/
def jsSortBy {α : Type} (le : α → α → Bool) : List α → List α
  | [] => []
  | a :: l => insertSorted le a (jsSortBy le l)

/-- Insertion-ordered deduplication (model of filling a JS `Set` and
iterating it). -/
def dedupFirst (l : List Int) : List Int :=
  l.foldl (fun acc t => if acc.contains t then acc else acc ++ [t]) []

/-! ### Analyzer state (`NewPipelineTrajectoryAnalyzer` fields) -/

/-- `NewPeakAnalysis`: peak-and-decline statistics of one month. -/
structure NewPeakAnalysis where
  month : String
  peakDate : Int
  peakRawValue : ℚ
  peakWeightedValue : ℚ
  daysBeforeClosing : Int
  actualClosingRawValue : ℚ
  actualClosingWeightedValue : ℚ
  declinePercentageRaw : ℚ
  declinePercentageWeighted : ℚ
deriving DecidableEq

/-- The private fields of `NewPipelineTrajectoryAnalyzer`. -/
structure AnalyzerState where
  allData : List ProcessedRow
  aggregatedDataByMonth : MonthData
  allHistoricalMonths : List String
  currentMonths : List String
  actualClosingValues : List (String × ClosingValue)
  forecastGrowthRates : List DailyGrowthRate
  medianGrowthRates : List DailyGrowthRate
  peakData : List NewPeakAnalysis

/-- A freshly constructed analyzer. -/
def initState : AnalyzerState := ⟨[], [], [], [], [], [], [], []⟩

/-! ### MonthAggregator (`aggregateDataByMonth`, lines 109-161) -/

/-- The intermediate per-day aggregate record of `aggregateDataByMonth`. -/
structure DailyAggregate where
  raw : ℚ
  weighted : ℚ
  snapshotDate : Int
  closingMonth : Int
deriving DecidableEq

/-- Phase 1 (lines 110-122): group rows by exact snapshot instant and
closing month, summing raw and weighted amounts.  The key
`iso-timestamp + "|" + monthKey` is modelled by the pair
`(ms, monthKey)` (ISO strings are injective images of timestamps). -/
def dataBySnapshotAndMonth (rows : List ProcessedRow) :
    List ((Int × String) × (ℚ × ℚ)) :=
  rows.foldl (fun m row =>
    objUpsert m (row.snapshotDate, monthKeyOfMs row.closingMonth) (0, 0)
      (fun rw => (rw.1 + row.amount, rw.2 + row.weightedAmount))) []

/-- Phase 2 (lines 124-139): per calendar day keep only the latest
snapshot instant; the value stored with a day key is replaced whenever a
strictly later instant of the same day arrives.  `closingMonth` is
rebuilt from the month key as `new Date(monthKey + "-01T00:00:00.000Z")`. -/
def dailyAggregates (grouped : List ((Int × String) × (ℚ × ℚ))) :
    List ((Int × String) × DailyAggregate) :=
  grouped.foldl (fun m e =>
    let snap := e.1.1
    let monthKey := e.1.2
    let entry : DailyAggregate :=
      { raw := e.2.1, weighted := e.2.2, snapshotDate := snap,
        closingMonth := (monthKeyToMs monthKey).getD 0 }
    match objGet m (msToDays snap, monthKey) with
    | none => m ++ [((msToDays snap, monthKey), entry)]
    | some old =>
        if old.snapshotDate < snap then
          objSet m (msToDays snap, monthKey) entry
        else m) []

/-- Phase 3 (lines 141-156): push each retained day aggregate onto its
month's list, starting from the EXISTING map `agg0` (the source never
resets `this.aggregatedDataByMonth`), recomputing `daysBeforeClose`
against the month's last instant. -/
def pushDailyAggregates (agg0 : MonthData)
    (daily : List ((Int × String) × DailyAggregate)) : MonthData :=
  daily.foldl (fun (m : MonthData) e =>
    let a := e.2
    let monthKey := monthKeyOfMs a.closingMonth
    let daysBeforeClose :=
      ceilDiv (lastDayOfMonthMs a.closingMonth - a.snapshotDate) msPerDay
    objUpsert m monthKey []
      (fun l => l ++ [{ snapshotDate := a.snapshotDate,
                        daysBeforeClose := daysBeforeClose,
                        rawPipeline := a.raw,
                        weightedPipeline := a.weighted }])) agg0

/-- Phase 4 (lines 158-160): stably sort every month's list by
descending `daysBeforeClose`. -/
def sortMonthLists (m : MonthData) : MonthData :=
  m.map (fun e =>
    (e.1, jsSortBy (fun a b => b.daysBeforeClose ≤ a.daysBeforeClose) e.2))

/-- `aggregateDataByMonth` (lines 109-161). -/
def aggregateDataByMonth (s : AnalyzerState) : AnalyzerState :=
  { s with aggregatedDataByMonth :=
      sortMonthLists (pushDailyAggregates s.aggregatedDataByMonth
        (dailyAggregates (dataBySnapshotAndMonth s.allData))) }

/-! ### Actual closing values (`calculateActualClosingValues`,
lines 234-253) -/

/-- The trajectory point closest to day 0 (`reduce` with strict `<`, so
the earliest of tied points wins). -/
def closestToClose (h : AggregatedSnapshot) (t : List AggregatedSnapshot) :
    AggregatedSnapshot :=
  t.foldl (fun closest point =>
    if |point.daysBeforeClose| < |closest.daysBeforeClose| then point
    else closest) h

/-- `calculateActualClosingValues`: for every month of the aggregate map
whose closest-to-close point is within 5 days, record its raw/weighted
values.  Entries of months not revisited are left in place. -/
def calculateActualClosingValues (s : AnalyzerState) : AnalyzerState :=
  let acts := (s.aggregatedDataByMonth.map (·.1)).foldl (fun acts monthKey =>
    match objGet s.aggregatedDataByMonth monthKey with
    | some (h :: t) =>
        let pt := closestToClose h t
        if |pt.daysBeforeClose| ≤ 5 then
          objSet acts monthKey ⟨pt.rawPipeline, pt.weightedPipeline⟩
        else acts
    | _ => acts) s.actualClosingValues
  { s with actualClosingValues := acts }

/-! ### MonthClassifier (`categorizeMonths`, lines 163-174) -/

/-- The month-key comparison date of `categorizeMonths`:
`Date.UTC(parseInt(key[0:4]), parseInt(key[5:7]), 0)` — day 0 of the
next month, i.e. the closing month's last day at UTC midnight.  `none`
models an Invalid Date (every `<` comparison on it is false). -/
def monthKeyClosingDate (monthKey : String) : Option Int :=
  match jsParseInt (strSub monthKey 0 4), jsParseInt (strSub monthKey 5 7) with
  | some y, some mnum => some (dateUTC y mnum 0 0 0 0 0)
  | _, _ => none

/-- `categorizeMonths`: historical = closing date strictly before
`today` and a recorded actual closing value with positive weighted
value; every other month is current, sorted by `new Date(key)`. -/
def categorizeMonths (today : Int) (s : AnalyzerState) : AnalyzerState :=
  let allMonths := jsSortBy strLe (s.aggregatedDataByMonth.map (·.1))
  let hist := allMonths.filter (fun monthKey =>
    match monthKeyClosingDate monthKey with
    | none => false
    | some closingDate =>
        if closingDate < today then
          match objGet s.actualClosingValues monthKey with
          | some cv => 0 < cv.weighted
          | none => false
        else false)
  let current := allMonths.filter (fun monthKey => ! hist.contains monthKey)
  let current := jsSortBy (fun a b =>
    (jsParseDate a).getD 0 ≤ (jsParseDate b).getD 0) current
  { s with allHistoricalMonths := hist, currentMonths := current }

/-! ### GrowthRateModel (`calculateGrowthRates`, lines 176-232)

The backtest analyzer (`src/services/backtest-analyzer.ts` lines 34-89)
contains a character-identical copy of this method; the single embedding
below models both. -/

/-- The growth contributions of one month's trajectory: for each
consecutive pair at distance 1..3 days with positive previous weighted
value and implied per-day rate in (-0.5, 0.5), one `(day, rate)` entry
for every day of the gap that lies in [0, 89]. -/
noncomputable def growthPairContribs (monthData : List AggregatedSnapshot) :
    List (Int × ℝ) :=
  (monthData.zip monthData.tail).flatMap (fun pc =>
    let previous := pc.1
    let current := pc.2
    let daysDiff := previous.daysBeforeClose - current.daysBeforeClose
    if 0 < daysDiff ∧ daysDiff ≤ 3 then
      if 0 < previous.weightedPipeline then
        let growth : ℝ :=
          Real.rpow
            ((current.weightedPipeline / previous.weightedPipeline : ℚ) : ℝ)
            (1 / (daysDiff : ℝ)) - 1
        if -(1 / 2) < growth ∧ growth < 1 / 2 then
          (List.range daysDiff.toNat).filterMap (fun dd =>
            let day := current.daysBeforeClose + (dd : Int)
            if 0 ≤ day ∧ day ≤ 89 then some (day, growth) else none)
        else []
      else []
    else [])

/-- The list `dailyRates[day]`, in push order. -/
noncomputable def dailyRatesAt (contribs : List (Int × ℝ)) (day : Int) :
    List ℝ :=
  (contribs.filter (fun c => c.1 = day)).map (·.2)

/-- Median of a nonempty rate list (lines 209-211): sort ascending, take
the middle element, or the mean of the two middle elements. -/
noncomputable def medianOf (l : List ℝ) : ℝ :=
  let sorted := jsSortBy (fun a b => a ≤ b) l
  let mid := l.length / 2
  if l.length % 2 ≠ 0 then sorted.getD mid 0
  else (sorted.getD (mid - 1) 0 + sorted.getD mid 0) / 2

/-- The concatenated contributions of a list of training months
(lines 179-204), in iteration order; a missing month contributes
nothing. -/
noncomputable def monthContribs (agg : MonthData) (months : List String) :
    List (Int × ℝ) :=
  months.flatMap (fun monthKey =>
    match objGet agg monthKey with
    | none => []
    | some monthData => growthPairContribs monthData)

/-- The per-day median curve (lines 206-217): day 0..89, median of the
day's rates (0 when there are none), then the final
sort-by-`daysBefore` of the source. -/
noncomputable def medianRatesOf (contribs : List (Int × ℝ)) :
    List DailyGrowthRate :=
  jsSortBy (fun a b => a.daysBefore ≤ b.daysBefore)
    ((List.range 90).map (fun day =>
      let l := dailyRatesAt contribs (day : Int)
      if l.isEmpty then (⟨(day : Int), 0⟩ : DailyGrowthRate)
      else ⟨(day : Int), medianOf l⟩))

/-- The smoothing pass (lines 220-231): 5-point moving average with the
window clipped to the curve's bounds. -/
noncomputable def smoothRates (medianRates : List DailyGrowthRate) :
    List DailyGrowthRate :=
  (List.range medianRates.length).map (fun i =>
    let start := i - 2
    let stop := min (medianRates.length - 1) (i + 2)
    let sum := ((List.range (stop + 1 - start)).map (fun j =>
      (medianRates.getD (start + j) ⟨0, 0⟩).rate)).sum
    (⟨(medianRates.getD i ⟨0, 0⟩).daysBefore,
      sum / ((stop + 1 - start : ℕ) : ℝ)⟩ : DailyGrowthRate))

/-- `calculateGrowthRates`: per-day medians over the training months'
gap-filled growth contributions (0 for days with none), then a 5-point
moving average clipped at the boundaries.  Returns
`(medianRates, smoothedRates)` — the source stores the former in
`this.medianGrowthRates` and returns the latter. -/
noncomputable def calculateGrowthRates (agg : MonthData)
    (months : List String) : List DailyGrowthRate × List DailyGrowthRate :=
  let medianRates := medianRatesOf (monthContribs agg months)
  (medianRates, smoothRates medianRates)

/-! ### PeakDeclineAnalyzer (`analyzePeakAndDecline`, lines 381-440) -/

/-- `analyzePeakAndDecline`: for each historical month, scan the raw
observations of the two-month window ending at month end; the snapshot
instant with the strictly largest raw sum for this closing month is the
peak; skip the month when the window has no snapshots, no actual closing
value is recorded, or the peak raw sum is 0. -/
def analyzePeakAndDecline (s : AnalyzerState) : List NewPeakAnalysis :=
  let results := s.allHistoricalMonths.filterMap (fun monthKey =>
    let closingMonthDate := (monthKeyToMs monthKey).getD 0
    let windowEndDate :=
      dateUTC (getUTCFullYear closingMonthDate)
        (getUTCMonthIdx closingMonthDate + 1) 0 23 59 59 999
    let windowStartDate :=
      dateUTC (getUTCFullYear closingMonthDate)
        (getUTCMonthIdx closingMonthDate - 1) 1 0 0 0 0
    let uniqueSnapshots := dedupFirst
      (((s.allData.filter (fun row =>
          windowStartDate ≤ row.snapshotDate
            ∧ row.snapshotDate ≤ windowEndDate))).map (·.snapshotDate))
    if uniqueSnapshots.isEmpty then none
    else
      let peak := uniqueSnapshots.foldl (fun (pk : Int × ℚ × ℚ) snap =>
        let deals := s.allData.filter (fun d =>
          d.snapshotDate = snap ∧ monthKeyOfMs d.closingMonth = monthKey)
        let totalRaw := (deals.map (·.amount)).sum
        let totalWeighted := (deals.map (·.weightedAmount)).sum
        if pk.2.1 < totalRaw then (snap, totalRaw, totalWeighted) else pk)
        ((0 : Int), (0 : ℚ), (0 : ℚ))
      match objGet s.actualClosingValues monthKey with
      | none => none
      | some actuals =>
          if peak.2.1 = 0 then none
          else
            some {
              month := monthKey
              peakDate := peak.1
              peakRawValue := peak.2.1
              peakWeightedValue := peak.2.2
              daysBeforeClosing :=
                ceilDiv (lastDayOfMonthMs closingMonthDate - peak.1) msPerDay
              actualClosingRawValue := actuals.raw
              actualClosingWeightedValue := actuals.weighted
              declinePercentageRaw :=
                (peak.2.1 - actuals.raw) / peak.2.1 * 100
              declinePercentageWeighted :=
                (peak.2.2 - actuals.weighted) / peak.2.2 * 100 })
  jsSortBy (fun a b =>
    (jsParseDate a.month).getD 0 ≤ (jsParseDate b.month).getD 0) results

/-! ### `loadData` (lines 35-46)

The ambient clock `new Date()` of `categorizeMonths` is passed
explicitly as `today`. -/

/-- `loadData`: replace `allData` with the parsed rows; when no valid
observation remains, return immediately (leaving every derived field as
it was); otherwise run the aggregation pipeline — whose first stage
pushes onto the EXISTING `aggregatedDataByMonth` — and rebuild
classification, growth curves and peak data. -/
noncomputable def loadData (today : Int) (s : AnalyzerState)
    (rawData : List RawCSVRow) : AnalyzerState :=
  let s := { s with allData := processRawData rawData }
  if s.allData.length = 0 then s
  else
    let s := aggregateDataByMonth s
    let s := calculateActualClosingValues s
    let s := categorizeMonths today s
    let gr := calculateGrowthRates s.aggregatedDataByMonth s.allHistoricalMonths
    let s := { s with forecastGrowthRates := gr.2, medianGrowthRates := gr.1 }
    { s with peakData := analyzePeakAndDecline s }

/-! ### ForecastEngine and SimilarityFinder
(`getForecast`, `getTrajectoryAtDaysBefore`,
`calculateTrajectorySimilarity`, `findSimilarHistoricalMonths`,
lines 255-379) -/

/-- `NewTrajectoryPoint`: a (possibly projected) trajectory point. -/
structure NewTrajectoryPoint where
  snapshotDate : Int
  daysBeforeClose : Int
  weightedAmount : ℝ
  rawAmount : ℝ

/-- `SimilarityPoint`: one matched comparison checkpoint. -/
structure SimilarityPoint where
  days_before : Int
  current_value : ℚ
  historical_value : ℚ
  pct_difference : ℚ
deriving DecidableEq

/-- `NewTrajectoryComparison` together with the transient `score` used
for ranking before the slice. -/
structure NewTrajectoryComparison where
  historical_month : String
  avg_pct_diff : ℚ
  variance : ℝ
  similarities : List SimilarityPoint
  historical_closing : ℚ
  score : ℝ

/-- `NewAnalysisResult`: the per-month forecast summary; `forecast` is
`none` for the JS `null`. -/
structure NewAnalysisResult where
  month : String
  currentRawValue : ℚ
  currentWeightedValue : ℚ
  daysToClose : Int
  totalProjectedGrowth : ℝ
  forecast : Option ℝ
  trajectory : List NewTrajectoryPoint
  forecastTrajectory : List NewTrajectoryPoint
  similarMonths : List NewTrajectoryComparison

/-- `getTrajectoryAtDaysBefore` (lines 297-306, and verbatim again in
the backtest analyzer, lines 91-100): the point whose `daysBeforeClose`
is closest to `targetDays` (first of ties), accepted only within
`tolerance`. -/
def getTrajectoryAtDaysBefore (monthData : List AggregatedSnapshot)
    (targetDays : Int) (tolerance : Int := 3) : Option AggregatedSnapshot :=
  match monthData with
  | [] => none
  | h :: t =>
      let closest := t.foldl (fun best point =>
        if |point.daysBeforeClose - targetDays|
            < |best.daysBeforeClose - targetDays| then point else best) h
      if |closest.daysBeforeClose - targetDays| ≤ tolerance then some closest
      else none

/-- `calculateTrajectorySimilarity` (lines 308-332): for each
comparison day with both trajectories matched within tolerance, emit the
percent difference — unless the historical value is exactly 0, in which
case the checkpoint is skipped (`continue`). -/
def calculateTrajectorySimilarity (currentTrajectory historicalTrajectory :
    List AggregatedSnapshot) (comparisonDays : List Int) :
    List SimilarityPoint :=
  comparisonDays.filterMap (fun daysBefore =>
    match getTrajectoryAtDaysBefore currentTrajectory daysBefore,
        getTrajectoryAtDaysBefore historicalTrajectory daysBefore with
    | some currentPoint, some historicalPoint =>
        let currentValue := currentPoint.weightedPipeline
        let historicalValue := historicalPoint.weightedPipeline
        if historicalValue = 0 then none
        else some ⟨daysBefore, currentValue, historicalValue,
          (currentValue - historicalValue) / historicalValue * 100⟩
    | _, _ => none)

/-- `findSimilarHistoricalMonths` (lines 334-379): score the historical
months from January 2025 on by trajectory resemblance plus closing-value
distance, and keep the 3 best. -/
noncomputable def findSimilarHistoricalMonths (s : AnalyzerState)
    (currentMonth : String) (forecastValue : ℝ) :
    List NewTrajectoryComparison :=
  match objGet s.aggregatedDataByMonth currentMonth with
  | none => []
  | some currentTrajectory =>
    if currentTrajectory.isEmpty then []
    else
      let comparisonDays : List Int := [85, 75, 60, 45, 30, 15]
      let cutoff := (jsParseDate "2025-01-01T00:00:00.000Z").getD 0
      let candidates := s.allHistoricalMonths.filter (fun month =>
        match jsParseDate month with
        | some t => cutoff ≤ t
        | none => false)
      let comparisons := candidates.filterMap (fun historicalMonth =>
        match objGet s.aggregatedDataByMonth historicalMonth with
        | none => none
        | some historicalTrajectory =>
            if historicalTrajectory.isEmpty then none
            else
              let sims := calculateTrajectorySimilarity currentTrajectory
                historicalTrajectory comparisonDays
              if sims.isEmpty then none
              else
                let avgPctDiff :=
                  (sims.map (·.pct_difference)).sum / (sims.length : ℚ)
                let variance := Real.sqrt
                  ((sims.map (fun sp =>
                    ((sp.pct_difference - avgPctDiff : ℚ) : ℝ) ^ 2)).sum
                    / (sims.length : ℝ))
                let trajectoryScore := |(avgPctDiff : ℝ)| + variance
                let historicalClosing : ℚ :=
                  ((objGet s.actualClosingValues historicalMonth).map
                    (·.weighted)).getD 0
                let forecastDiff : ℝ :=
                  if 0 < forecastValue then
                    |(historicalClosing : ℝ) - forecastValue| / forecastValue
                  else 1
                some ⟨historicalMonth, avgPctDiff, variance, sims,
                  historicalClosing,
                  trajectoryScore * (7 / 10) + forecastDiff * (3 / 10)⟩)
      (jsSortBy (fun a b => a.score ≤ b.score) comparisons).take 3

/-- The rate applied on day `d`:
`rates.find(r => r.daysBefore === d)?.rate ?? 0`. -/
noncomputable def rateFor (rates : List DailyGrowthRate) (d : Int) : ℝ :=
  ((rates.find? (fun r => r.daysBefore = d)).map (·.rate)).getD 0

/-- The forecast projection loop (lines 272-277): starting with fuel
`daysToClose`, day `d` runs from `daysToClose - 1` down to 0, the value
compounds by `1 + rate d`, and the simulated date advances one day per
step.  Returns the recorded forecast trajectory and the final value. -/
noncomputable def forecastLoop (rates : List DailyGrowthRate) (value : ℝ)
    (date : Int) : Nat → List NewTrajectoryPoint × ℝ
  | 0 => ([], value)
  | k + 1 =>
      let value' := value * (1 + rateFor rates (k : Int))
      let date' := date + msPerDay
      let rest := forecastLoop rates value' date' k
      (⟨date', (k : Int), value', 0⟩ :: rest.1, rest.2)

/-- The all-zero result returned for a month with no aggregated data
(line 258). -/
def emptyMonthResult (monthKey : String) : NewAnalysisResult :=
  ⟨monthKey, 0, 0, 0, 0, none, [], [], []⟩

/-- The most recent snapshot of a nonempty trajectory (line 260;
`reduce` with strict `>`, so the earliest of tied instants wins). -/
def latestSnapshotOf (h : AggregatedSnapshot)
    (t : List AggregatedSnapshot) : AggregatedSnapshot :=
  t.foldl (fun latest current =>
    if latest.snapshotDate < current.snapshotDate then current else latest) h

/-- The body of the `getForecast` month map (lines 256-294). -/
noncomputable def forecastMonth (s : AnalyzerState) (monthKey : String) :
    NewAnalysisResult :=
  match objGet s.aggregatedDataByMonth monthKey with
  | none => emptyMonthResult monthKey
  | some [] => emptyMonthResult monthKey
  | some (h :: t) =>
      let latestSnapshot := latestSnapshotOf h t
      let daysToClose := latestSnapshot.daysBeforeClose
      let trajectory := (h :: t).map (fun d =>
        (⟨d.snapshotDate, d.daysBeforeClose, (d.weightedPipeline : ℝ),
          (d.rawPipeline : ℝ)⟩ : NewTrajectoryPoint))
      if 89 < daysToClose then
        ⟨monthKey, latestSnapshot.rawPipeline,
          latestSnapshot.weightedPipeline, daysToClose, 0, none,
          trajectory, [], []⟩
      else
        let fl := forecastLoop s.forecastGrowthRates
          (latestSnapshot.weightedPipeline : ℝ) latestSnapshot.snapshotDate
          daysToClose.toNat
        let finalForecast := fl.2
        ⟨monthKey, latestSnapshot.rawPipeline,
          latestSnapshot.weightedPipeline, daysToClose,
          finalForecast / (latestSnapshot.weightedPipeline : ℝ) - 1,
          some finalForecast, trajectory, fl.1,
          findSimilarHistoricalMonths s monthKey finalForecast⟩

/-- `getForecast` (lines 255-295): one result per current month. -/
noncomputable def getForecast (s : AnalyzerState) : List NewAnalysisResult :=
  s.currentMonths.map (forecastMonth s)

/-! ### GoalSeekEngine (`generateGoalSeekTrajectory`, lines 501-535) -/

/-- The most recent point of a nonempty trajectory (line 507). -/
def latestTrajectoryPoint (h : NewTrajectoryPoint)
    (t : List NewTrajectoryPoint) : NewTrajectoryPoint :=
  t.foldl (fun latest p =>
    if latest.snapshotDate < p.snapshotDate then p else latest) h

/-- The base forecast (lines 513-515): compound `startingValue` through
the rates of all curve entries with `daysBefore < daysToClose`, in list
order. -/
noncomputable def baseForecastOf (rates : List DailyGrowthRate)
    (startingValue : ℝ) (daysToClose : Int) : ℝ :=
  (rates.filter (fun r => r.daysBefore < daysToClose)).foldl
    (fun acc r => acc * (1 + r.rate)) startingValue

/-- The goal-seek re-projection loop (lines 526-532): like
`forecastLoop` but each day's base rate is increased by the uniform
`lift` before compounding. -/
noncomputable def goalSeekLoop (rates : List DailyGrowthRate) (lift : ℝ)
    (value : ℝ) (date : Int) : Nat → List NewTrajectoryPoint
  | 0 => []
  | k + 1 =>
      let adjustedRate := rateFor rates (k : Int) + lift
      let value' := value * (1 + adjustedRate)
      let date' := date + msPerDay
      ⟨date', (k : Int), value', 0⟩ :: goalSeekLoop rates lift value' date' k

/-- `generateGoalSeekTrajectory`: refuse (returning the input) on
non-positive starting value, days-to-close, or base forecast; otherwise
compute the uniform daily lift `(goal / baseForecast)^(1/daysToClose) - 1`
and re-project, appending the projected points strictly below the
latest point's `daysBeforeClose`. -/
noncomputable def generateGoalSeekTrajectory (rates : List DailyGrowthRate)
    (originalTrajectory : List NewTrajectoryPoint) (goalValue : ℝ) :
    List NewTrajectoryPoint :=
  match originalTrajectory with
  | [] => []
  | h :: t =>
      let latestPoint := latestTrajectoryPoint h t
      let startingValue := latestPoint.weightedAmount
      let daysToClose := latestPoint.daysBeforeClose
      if startingValue ≤ 0 ∨ daysToClose ≤ 0 then originalTrajectory
      else
        let baseForecast := baseForecastOf rates startingValue daysToClose
        if baseForecast ≤ 0 then originalTrajectory
        else
          let requiredTotalGrowth := goalValue / baseForecast
          let requiredDailyLift :=
            Real.rpow requiredTotalGrowth (1 / (daysToClose : ℝ)) - 1
          let projectedTrajectory := latestPoint ::
            goalSeekLoop rates requiredDailyLift startingValue
              latestPoint.snapshotDate daysToClose.toNat
          originalTrajectory ++ projectedTrajectory.filter (fun p =>
            p.daysBeforeClose < latestPoint.daysBeforeClose)

/-! ### BacktestRunner (`src/services/backtest-analyzer.ts`)

`BacktestAnalyzer.calculateGrowthRates` and
`BacktestAnalyzer.getTrajectoryAtDaysBefore` are verbatim copies of the
analyzer methods embedded above; `categorizeMonths` differs from the
analyzer's only in sorting chronologically instead of
lexicographically. -/

/-- `NewBacktestResult`. -/
structure NewBacktestResult where
  month : String
  daysBefore : Int
  prediction : ℝ
  actual : ℚ

/-- `this.startMonth` (line 13). -/
def backtestStartMonth : String := "2025-04"

/-- The fixed backtest checkpoints (line 104). -/
def backtestTestPoints : List Int := [60, 45, 30, 15, 7, 1]

/-- `BacktestAnalyzer.categorizeMonths` (lines 24-32). -/
def backtestCategorizeMonths (today : Int) (agg : MonthData)
    (acts : List (String × ClosingValue)) : List String :=
  jsSortBy (fun a b => (jsParseDate a).getD 0 ≤ (jsParseDate b).getD 0)
    ((agg.map (·.1)).filter (fun monthKey =>
      match monthKeyClosingDate monthKey with
      | none => false
      | some closingDate =>
          if closingDate < today then
            match objGet acts monthKey with
            | some cv => 0 < cv.weighted
            | none => false
          else false))

/-- The backtest prediction loop (lines 137-141): compound the start
value through the freshly trained smoothed curve from
`daysBefore - 1` down to day 0. -/
noncomputable def predictLoop (rates : List DailyGrowthRate) (value : ℝ) :
    Nat → ℝ
  | 0 => value
  | k + 1 => predictLoop rates (value * (1 + rateFor rates (k : Int))) k

/-- The body of the backtest month loop (lines 114-152): train on
`hist.slice(i-3, i)`, skip unless exactly 3 training months and a
truthy actual closing value, then predict at every matched checkpoint. -/
noncomputable def backtestMonthResults (hist : List String) (agg : MonthData)
    (acts : List (String × ClosingValue)) (i : Nat) :
    List NewBacktestResult :=
  let testMonth := hist.getD i ""
  let trainingMonths := (hist.take i).drop (i - 3)
  if trainingMonths.length ≠ 3 then []
  else
    let backtestGrowthRates := (calculateGrowthRates agg trainingMonths).2
    let monthData := (objGet agg testMonth).getD []
    match objGet acts testMonth with
    | none => []
    | some cv =>
        if cv.weighted = 0 then []
        else
          backtestTestPoints.filterMap (fun day =>
            (getTrajectoryAtDaysBefore monthData day).map (fun startPoint =>
              ⟨testMonth, startPoint.daysBeforeClose,
                predictLoop backtestGrowthRates
                  (startPoint.weightedPipeline : ℝ)
                  startPoint.daysBeforeClose.toNat,
                cv.weighted⟩))

/-- `getBacktestResults` (lines 102-155): find the first historical
month at or after April 2025; abort with `[]` when there is none or
when it has fewer than 3 predecessors; otherwise run every index from
there to the end. -/
noncomputable def getBacktestResults (hist : List String) (agg : MonthData)
    (acts : List (String × ClosingValue)) : List NewBacktestResult :=
  match hist.findIdx? (fun month => strLe backtestStartMonth month) with
  | none => []
  | some startIndex =>
      if startIndex < 3 then []
      else
        (List.range' startIndex (hist.length - startIndex)).flatMap
          (backtestMonthResults hist agg acts)

/-! ## Theorems -/

/-- C1 (counterexample): loading a one-row dataset and then an empty
dataset on the same analyzer does NOT leave the derived state of a
fresh analyzer loaded with only the empty dataset: the aggregated
trajectories of the first load survive the second `loadData`, while a
fresh analyzer has none. -/
theorem loadData_reload_differs_from_fresh :
    (loadData 1760486400000
        (loadData 1760486400000 initState
          [⟨"2025-09-01T00:00:00.000Z", "09/15/2025", "100", "FUNDED"⟩])
        []).aggregatedDataByMonth
      ≠ (loadData 1760486400000 initState []).aggregatedDataByMonth := by
  decide

/-- C1 (amended): when the new input yields zero valid observations,
`loadData` replaces only `allData` and leaves every derived structure
(aggregated trajectories, actual closing values, month classification,
growth curves, peak data) exactly as it was — it does not reset them. -/
theorem loadData_zero_valid_replaces_only_allData
    (today : Int) (s : AnalyzerState) (rows : List RawCSVRow)
    (hrows : processRawData rows = []) :
    loadData today s rows = { s with allData := [] } := by
  unfold loadData
  rw [hrows]
  simp

/-- C1 (witness): a concrete instance of the amended statement. -/
theorem loadData_zero_valid_replaces_only_allData_witness :
    loadData 0 initState [] = { initState with allData := [] } :=
  loadData_zero_valid_replaces_only_allData 0 initState [] rfl

/-- C8: `generateGoalSeekTrajectory` returns the input trajectory
unchanged whenever the latest point's weighted value is ≤ 0, or its
`daysBeforeClose` is ≤ 0, or the compounded base forecast is ≤ 0. -/
theorem generateGoalSeekTrajectory_refuses_invalid
    (rates : List DailyGrowthRate) (h : NewTrajectoryPoint)
    (t : List NewTrajectoryPoint) (goal : ℝ)
    (hguard : (latestTrajectoryPoint h t).weightedAmount ≤ 0
      ∨ (latestTrajectoryPoint h t).daysBeforeClose ≤ 0
      ∨ baseForecastOf rates (latestTrajectoryPoint h t).weightedAmount
          (latestTrajectoryPoint h t).daysBeforeClose ≤ 0) :
    generateGoalSeekTrajectory rates (h :: t) goal = h :: t := by
  unfold generateGoalSeekTrajectory
  dsimp only
  split_ifs with h1 h2
  · rfl
  · rfl
  · rcases hguard with hg | hg | hg
    · exact absurd (Or.inl hg) h1
    · exact absurd (Or.inr hg) h1
    · exact absurd hg h2

/-- C8 (witness): a trajectory whose latest point carries a
non-positive weighted value is returned unchanged. -/
theorem generateGoalSeekTrajectory_refuses_invalid_witness :
    generateGoalSeekTrajectory [] [⟨0, 1, -1, 0⟩] 5 = [⟨0, 1, -1, 0⟩] :=
  generateGoalSeekTrajectory_refuses_invalid [] ⟨0, 1, -1, 0⟩ [] 5
    (Or.inl (by norm_num [latestTrajectoryPoint]))

/-- C10: every similarity point produced by
`calculateTrajectorySimilarity` records a strictly nonzero historical
(candidate) weighted value — the percent difference is never formed
against a zero divisor — and that value is exactly the weighted value
of the candidate's matched point at that checkpoint. -/
theorem calculateTrajectorySimilarity_historical_nonzero
    (currentTrajectory historicalTrajectory : List AggregatedSnapshot)
    (comparisonDays : List Int) (sp : SimilarityPoint)
    (hsp : sp ∈ calculateTrajectorySimilarity currentTrajectory
      historicalTrajectory comparisonDays) :
    sp.historical_value ≠ 0 ∧
      (getTrajectoryAtDaysBefore historicalTrajectory sp.days_before).map
        (·.weightedPipeline) = some sp.historical_value := by
  unfold calculateTrajectorySimilarity at hsp
  rcases List.mem_filterMap.mp hsp with ⟨db, _, hdb⟩
  rcases hc : getTrajectoryAtDaysBefore currentTrajectory db with _ | cp <;>
    rcases hh : getTrajectoryAtDaysBefore historicalTrajectory db with _ | hp <;>
      rw [hc, hh] at hdb
  · exact absurd hdb (by simp)
  · exact absurd hdb (by simp)
  · exact absurd hdb (by simp)
  · dsimp only at hdb
    split_ifs at hdb with hz
    cases hdb
    exact ⟨hz, by rw [hh]; rfl⟩

/-- C10 (witness): a concrete checkpoint match with nonzero candidate
value. -/
theorem calculateTrajectorySimilarity_historical_nonzero_witness :
    (⟨60, 10, 5, 100⟩ : SimilarityPoint) ∈
        calculateTrajectorySimilarity [⟨0, 60, 10, 10⟩] [⟨0, 60, 5, 5⟩] [60]
      ∧ (⟨60, 10, 5, 100⟩ : SimilarityPoint).historical_value ≠ 0 :=
  ⟨by decide,
    (calculateTrajectorySimilarity_historical_nonzero
      [⟨0, 60, 10, 10⟩] [⟨0, 60, 5, 5⟩] [60] ⟨60, 10, 5, 100⟩
      (by decide)).1⟩

/-- C6: a raw row that passes every other parse step (fields present,
snapshot parses, closing date parses with year 2025, amount parses) is
kept if and only if its computed `daysBeforeClose` lies in [-5, 89]. -/
theorem processRow_keeps_iff_range
    (row : RawCSVRow) (t cd : Int)
    (h1 : row.snapShotTime ≠ "") (h2 : row.date ≠ "")
    (h3 : row.totalAmount ≠ "") (h4 : row.stage ≠ "")
    (hsnap : jsParseDate (jsTrim row.snapShotTime) = some t)
    (hdate : parseClosingDate (jsTrim row.date) = some cd)
    (hyear : getUTCFullYear cd = 2025)
    (hamount : (jsParseFloat (stripAmountChars row.totalAmount)).isSome) :
    (processRow row).isSome ↔
      (-5 ≤ ceilDiv (lastDayOfMonthMs cd - t) msPerDay
        ∧ ceilDiv (lastDayOfMonthMs cd - t) msPerDay ≤ 89) := by
  unfold processRow
  rw [if_neg (by simp [h1, h2, h3, h4]), hsnap, hdate]
  dsimp only
  rw [hyear, if_neg (by simp)]
  obtain ⟨a, ha⟩ := Option.isSome_iff_exists.mp hamount
  rw [ha]
  split_ifs with hr
  · simp only [Option.isSome_none, Bool.false_eq_true, false_iff]
    omega
  · simp only [Option.isSome_some, true_iff]
    omega

/-- C6 (witness): with closing date `09/30/2025`, a snapshot on
July 4 gives `daysBeforeClose = 89` and is kept; July 3 gives 90 and
October 7 gives -6, and both are dropped. -/
theorem processRow_keeps_iff_range_witness :
    (processRow ⟨"2025-07-04T00:00:00.000Z", "09/30/2025", "100",
        "APPROVED"⟩).isSome
      ∧ ¬ (processRow ⟨"2025-07-03T00:00:00.000Z", "09/30/2025", "100",
        "APPROVED"⟩).isSome
      ∧ ¬ (processRow ⟨"2025-10-07T00:00:00.000Z", "09/30/2025", "100",
        "APPROVED"⟩).isSome := by
  refine ⟨?_, fun hkeep => ?_, fun hkeep => ?_⟩
  · exact (processRow_keeps_iff_range _ 1751587200000 1759190400000
      (by decide) (by decide) (by decide) (by decide) (by decide) (by decide)
      (by decide) (by decide)).mpr (by decide)
  · have := (processRow_keeps_iff_range _ 1751500800000 1759190400000
      (by decide) (by decide) (by decide) (by decide) (by decide) (by decide)
      (by decide) (by decide)).mp hkeep
    revert this
    decide
  · have := (processRow_keeps_iff_range _ 1759795200000 1759190400000
      (by decide) (by decide) (by decide) (by decide) (by decide) (by decide)
      (by decide) (by decide)).mp hkeep
    revert this
    decide

/-- Evaluation kernel for C2: `Date.UTC(d, 2024, m)` with a day value
1..31 in year position lands in year `2068 + d` (the two-digit year
rule maps `d` to `1900 + d`, and the month argument 2024 adds 168 years
and 8 months). -/
theorem dateUTC_iso_swapped_year : ∀ dn : Nat, dn < 31 → ∀ mn : Nat,
    mn < 12 →
    getUTCFullYear (dateUTC ((dn : Int) + 1) 2024 ((mn : Int) + 1) 0 0 0 0)
      = 2068 + ((dn : Int) + 1) := by
  decide

/-- C2: a raw row whose closing-date text is a well-formed ISO date
`2025-MM-DD` (no slash, three dash-separated fields parsing to 2025,
a month 1..12 and a day 1..31) is ALWAYS dropped, whatever its
snapshot time and remaining fields: the parser reads the three parts as
`MM/DD/YYYY`, so the closing year becomes `2068 + day ≠ 2025`. -/
theorem processRow_drops_iso_2025
    (row : RawCSVRow) (t : Int) (ys ms ds : String) (m d : Int)
    (h1 : row.snapShotTime ≠ "") (h2 : row.date ≠ "")
    (h3 : row.totalAmount ≠ "") (h4 : row.stage ≠ "")
    (hsnap : jsParseDate (jsTrim row.snapShotTime) = some t)
    (hnoslash : strContains (jsTrim row.date) '/' = false)
    (hsplit : strSplit (jsTrim row.date) '-' = [ys, ms, ds])
    (hy : jsParseInt ys = some 2025)
    (hm : jsParseInt ms = some m) (hm1 : 1 ≤ m) (hm2 : m ≤ 12)
    (hd : jsParseInt ds = some d) (hd1 : 1 ≤ d) (hd2 : d ≤ 31) :
    processRow row = none := by
  have hdate : parseClosingDate (jsTrim row.date)
      = some (dateUTC d 2024 m 0 0 0 0) := by
    unfold parseClosingDate
    rw [hnoslash]
    simp only [Bool.false_eq_true, if_false, hsplit]
    rw [if_pos (show ([ys, ms, ds].length = 3) by simp)]
    simp only [List.getD, List.get?_cons_zero, List.get?_cons_succ,
      Option.getD_some]
    rw [hy, hm, hd]
    norm_num
  have hyear : getUTCFullYear (dateUTC d 2024 m 0 0 0 0) ≠ 2025 := by
    obtain ⟨dn, hdn, rfl⟩ : ∃ dn : Nat, dn < 31 ∧ d = (dn : Int) + 1 :=
      ⟨(d - 1).toNat, by omega, by omega⟩
    obtain ⟨mn, hmn, rfl⟩ : ∃ mn : Nat, mn < 12 ∧ m = (mn : Int) + 1 :=
      ⟨(m - 1).toNat, by omega, by omega⟩
    rw [dateUTC_iso_swapped_year dn hdn mn hmn]
    omega
  unfold processRow
  rw [if_neg (by simp [h1, h2, h3, h4]), hsnap, hdate]
  dsimp only
  rw [if_pos hyear]

/-- C2 (witness): the concrete ISO row `2025-09-15` is dropped. -/
theorem processRow_drops_iso_2025_witness :
    processRow ⟨"2025-09-01T00:00:00.000Z", "2025-09-15", "100", "FUNDED"⟩
      = none :=
  processRow_drops_iso_2025 _ 1756684800000 "2025" "09" "15" 9 15
    (by decide) (by decide) (by decide) (by decide) (by decide) (by decide)
    (by decide) (by decide) (by decide) (by decide) (by decide) (by decide)
    (by decide) (by decide)

/-- C9: for a current month with aggregated data, the forecast engine
(a) refuses to forecast when the latest point's `daysBeforeClose`
exceeds 89 — the result carries `forecast = none` and an empty forecast
trajectory but still reports the month's current raw and weighted
values and days-to-close; (b) produces a forecast whenever
`daysBeforeClose ∈ [0, 89]`; and (c) at `daysBeforeClose = 0` the
forecast equals the latest weighted value, with no compounding. -/
theorem getForecast_refusal_and_day_zero
    (s : AnalyzerState) (monthKey : String)
    (hmk : monthKey ∈ s.currentMonths)
    (h : AggregatedSnapshot) (t : List AggregatedSnapshot)
    (hagg : objGet s.aggregatedDataByMonth monthKey = some (h :: t)) :
    forecastMonth s monthKey ∈ getForecast s
    ∧ (89 < (latestSnapshotOf h t).daysBeforeClose →
        (forecastMonth s monthKey).forecast = none
        ∧ (forecastMonth s monthKey).forecastTrajectory = []
        ∧ (forecastMonth s monthKey).currentRawValue
            = (latestSnapshotOf h t).rawPipeline
        ∧ (forecastMonth s monthKey).currentWeightedValue
            = (latestSnapshotOf h t).weightedPipeline
        ∧ (forecastMonth s monthKey).daysToClose
            = (latestSnapshotOf h t).daysBeforeClose)
    ∧ (0 ≤ (latestSnapshotOf h t).daysBeforeClose →
        (latestSnapshotOf h t).daysBeforeClose ≤ 89 →
        ((forecastMonth s monthKey).forecast).isSome)
    ∧ ((latestSnapshotOf h t).daysBeforeClose = 0 →
        (forecastMonth s monthKey).forecast
          = some ((latestSnapshotOf h t).weightedPipeline : ℝ)) := by
  refine ⟨List.mem_map.mpr ⟨monthKey, hmk, rfl⟩, ?_, ?_, ?_⟩ <;>
    unfold forecastMonth <;> rw [hagg] <;> dsimp only
  · intro hgt
    rw [if_pos hgt]
    exact ⟨rfl, rfl, rfl, rfl, rfl⟩
  · intro hge hle
    rw [if_neg (by omega)]
    rfl
  · intro hz
    rw [if_neg (by omega), hz]
    dsimp only [Int.toNat_zero, forecastLoop]

/-- C9 (witness): a current month whose only point is at day 0 gets a
forecast equal to its weighted value. -/
theorem getForecast_refusal_and_day_zero_witness :
    (forecastMonth
        ⟨[], [("2025-12", [⟨0, 0, 5, 4⟩])], [], ["2025-12"], [], [], [], []⟩
        "2025-12").forecast = some ((4 : ℚ) : ℝ) :=
  (getForecast_refusal_and_day_zero
      ⟨[], [("2025-12", [⟨0, 0, 5, 4⟩])], [], ["2025-12"], [], [], [], []⟩
      "2025-12" (by decide) ⟨0, 0, 5, 4⟩ [] rfl).2.2.2 rfl

/-- Inserting with `insertSorted` permutes to consing. -/
theorem insertSorted_perm {α : Type} (le : α → α → Bool) (a : α)
    (l : List α) : insertSorted le a l ~ a :: l := by
  induction l with
  | nil => exact List.Perm.refl _
  | cons b l ih =>
      unfold insertSorted
      split
      · exact List.Perm.refl _
      · exact (List.Perm.cons b ih).trans (List.Perm.swap a b l)

/-- `jsSortBy` permutes its input. -/
theorem jsSortBy_perm {α : Type} (le : α → α → Bool) (l : List α) :
    jsSortBy le l ~ l := by
  induction l with
  | nil => exact List.Perm.refl _
  | cons a l ih =>
      exact (insertSorted_perm le a (jsSortBy le l)).trans (ih.cons a)

/-- `insertSorted` preserves sortedness for a total transitive Boolean
comparator. -/
theorem sorted_insertSorted {α : Type} (le : α → α → Bool)
    (htot : ∀ a b, le a b = false → le b a = true)
    (htrans : ∀ a b c, le a b = true → le b c = true → le a c = true)
    (a : α) (l : List α) (hl : l.Sorted (fun x y => le x y = true)) :
    (insertSorted le a l).Sorted (fun x y => le x y = true) := by
  induction l with
  | nil => simp [insertSorted]
  | cons b l ih =>
      rcases List.sorted_cons.mp hl with ⟨hb, hl'⟩
      unfold insertSorted
      by_cases hab : le a b = true
      · simp only [hab, if_true]
        refine List.sorted_cons.mpr ⟨?_, hl⟩
        intro c hc
        rcases List.mem_cons.mp hc with rfl | hc
        · exact hab
        · exact htrans a b c hab (hb c hc)
      · have hab' : le a b = false := by
          simpa using hab
        simp only [hab', Bool.false_eq_true, if_false]
        refine List.sorted_cons.mpr ⟨?_, ih hl'⟩
        intro c hc
        rcases List.mem_cons.mp ((insertSorted_perm le a l).mem_iff.mp hc)
          with rfl | hc'
        · exact htot _ _ hab'
        · exact hb c hc'

/-- `jsSortBy` sorts, for a total transitive Boolean comparator. -/
theorem sorted_jsSortBy {α : Type} (le : α → α → Bool)
    (htot : ∀ a b, le a b = false → le b a = true)
    (htrans : ∀ a b c, le a b = true → le b c = true → le a c = true)
    (l : List α) : (jsSortBy le l).Sorted (fun x y => le x y = true) := by
  induction l with
  | nil => simp [jsSortBy]
  | cons a l ih => exact sorted_insertSorted le htot htrans a _ ih

/-- Sorting real numbers with the JS ascending comparator depends only
on the multiset of values. -/
theorem jsSortBy_real_eq_of_perm {l₁ l₂ : List ℝ} (h : l₁ ~ l₂) :
    jsSortBy (fun a b => a ≤ b) l₁ = jsSortBy (fun a b => a ≤ b) l₂ := by
  have htot : ∀ a b : ℝ, (decide (a ≤ b)) = false → (decide (b ≤ a)) = true :=
    fun a b hf => decide_eq_true (le_of_not_le (of_decide_eq_false hf))
  have htrans : ∀ a b c : ℝ, (decide (a ≤ b)) = true →
      (decide (b ≤ c)) = true → (decide (a ≤ c)) = true :=
    fun a b c h1 h2 =>
      decide_eq_true (le_trans (of_decide_eq_true h1) (of_decide_eq_true h2))
  refine List.eq_of_perm_of_sorted (r := fun x y : ℝ => x ≤ y)
    (((jsSortBy_perm _ l₁).trans h).trans (jsSortBy_perm _ l₂).symm) ?_ ?_ <;>
    exact (sorted_jsSortBy _ htot htrans _).imp (fun hxy =>
      of_decide_eq_true hxy)

/-- The JS median depends only on the multiset of rates. -/
theorem medianOf_perm {l₁ l₂ : List ℝ} (h : l₁ ~ l₂) :
    medianOf l₁ = medianOf l₂ := by
  unfold medianOf
  rw [jsSortBy_real_eq_of_perm h, h.length_eq]

/-- C7: `calculateGrowthRates` — both the raw median curve and the
smoothed curve — is invariant under reordering the training months:
the same multiset of month keys yields identical output (and, being a
pure function of its arguments, every call with the same training set
returns the same curves). -/
theorem calculateGrowthRates_order_invariant (agg : MonthData)
    {months₁ months₂ : List String} (h : months₁ ~ months₂) :
    calculateGrowthRates agg months₁ = calculateGrowthRates agg months₂ := by
  have hc : monthContribs agg months₁ ~ monthContribs agg months₂ :=
    List.Perm.flatMap_right _ h
  have hm : medianRatesOf (monthContribs agg months₁)
      = medianRatesOf (monthContribs agg months₂) := by
    unfold medianRatesOf
    congr 1
    apply List.map_congr_left
    intro day _
    have hperm : dailyRatesAt (monthContribs agg months₁) (day : Int)
        ~ dailyRatesAt (monthContribs agg months₂) (day : Int) :=
      (hc.filter _).map _
    have hemp : (dailyRatesAt (monthContribs agg months₁)
          (day : Int)).isEmpty
        = (dailyRatesAt (monthContribs agg months₂) (day : Int)).isEmpty := by
      have hlen := hperm.length_eq
      cases h1 : dailyRatesAt (monthContribs agg months₁) (day : Int) <;>
        cases h2 : dailyRatesAt (monthContribs agg months₂) (day : Int) <;>
          simp_all
    dsimp only
    rw [hemp, medianOf_perm hperm]
  unfold calculateGrowthRates
  rw [hm]

/-- C7 (witness): swapping two training months leaves the curves
unchanged. -/
theorem calculateGrowthRates_order_invariant_witness :
    calculateGrowthRates [] ["2025-01", "2025-02"]
      = calculateGrowthRates [] ["2025-02", "2025-01"] :=
  calculateGrowthRates_order_invariant []
    (List.Perm.swap "2025-02" "2025-01" [])

/-- With an all-zero curve, every day's looked-up rate is 0. -/
theorem rateFor_eq_zero {rates : List DailyGrowthRate}
    (hzero : ∀ r ∈ rates, r.rate = 0) (d : Int) : rateFor rates d = 0 := by
  unfold rateFor
  cases hf : rates.find? (fun r => r.daysBefore = d) with
  | none => rfl
  | some r => simp [hzero r (List.mem_of_find?_eq_some hf)]

/-- With an all-zero curve, the base forecast is the starting value. -/
theorem baseForecastOf_zero {rates : List DailyGrowthRate}
    (hzero : ∀ r ∈ rates, r.rate = 0) (v : ℝ) (n : Int) :
    baseForecastOf rates v n = v := by
  unfold baseForecastOf
  suffices hgen : ∀ (l : List DailyGrowthRate) (v : ℝ), (∀ r ∈ l, r.rate = 0)
      → l.foldl (fun acc r => acc * (1 + r.rate)) v = v by
    exact hgen _ v (fun r hr => hzero r (List.mem_of_mem_filter hr))
  intro l
  induction l with
  | nil => intro v _; rfl
  | cons r l ih =>
      intro v hz
      rw [List.foldl_cons, hz r (List.mem_cons_self r l),
        show v * (1 + (0 : ℝ)) = v by ring]
      exact ih v (fun r' hr' => hz r' (List.mem_cons_of_mem r hr'))

/-- `getLast?` of a cons with nonempty tail. -/
theorem getLast?_cons_of_ne_nil {α : Type} {l : List α} (a : α)
    (h : l ≠ []) : (a :: l).getLast? = l.getLast? := by
  cases l with
  | nil => exact absurd rfl h
  | cons b l => rfl

/-- With an all-zero curve, the goal-seek loop compounds uniformly by
`1 + lift` and its last point sits at day 0 with value
`v * (1 + lift) ^ fuel`. -/
theorem goalSeekLoop_zero_getLast {rates : List DailyGrowthRate}
    (hzero : ∀ r ∈ rates, r.rate = 0) (lift : ℝ) :
    ∀ (k : Nat) (v : ℝ) (date : Int),
      (goalSeekLoop rates lift v date (k + 1)).getLast?
        = some ⟨date + msPerDay * ((k : Int) + 1), 0,
            v * (1 + lift) ^ (k + 1), 0⟩ := by
  intro k
  induction k with
  | zero =>
      intro v date
      have h0 : ∀ (v' : ℝ) (d' : Int), goalSeekLoop rates lift v' d' 0 = [] :=
        fun _ _ => rfl
      unfold goalSeekLoop
      dsimp only
      rw [rateFor_eq_zero hzero, h0]
      simp only [List.getLast?_singleton, Option.some.injEq,
        NewTrajectoryPoint.mk.injEq, and_true, true_and]
      and_intros <;> first
      | trivial
      | (push_cast; ring)
  | succ k ih =>
      intro v date
      show (goalSeekLoop rates lift v date (k + 1 + 1)).getLast? = _
      unfold goalSeekLoop
      dsimp only
      rw [rateFor_eq_zero hzero,
        getLast?_cons_of_ne_nil _
          (by unfold goalSeekLoop; exact List.cons_ne_nil _ _),
        ih]
      simp only [Option.some.injEq, NewTrajectoryPoint.mk.injEq, and_true,
        true_and]
      and_intros <;> first
      | trivial
      | (push_cast; ring)

/-- Every point the goal-seek loop emits has `daysBeforeClose`
strictly below the fuel. -/
theorem goalSeekLoop_dbc_lt {rates : List DailyGrowthRate} {lift : ℝ} :
    ∀ (fuel : Nat) (v : ℝ) (date : Int) (p : NewTrajectoryPoint),
      p ∈ goalSeekLoop rates lift v date fuel →
        p.daysBeforeClose < (fuel : Int) := by
  intro fuel
  induction fuel with
  | zero => intro v date p hp; cases hp
  | succ k ih =>
      intro v date p hp
      unfold goalSeekLoop at hp
      rcases List.mem_cons.mp hp with rfl | hp'
      · simp only []
        push_cast
        omega
      · have := ih _ _ p hp'
        push_cast at this ⊢
        omega

/-- C3 (counterexample): the goal-seek round trip FAILS in general.
With the single-day curve `rate(0) = 0.1`, starting value 1 one day
before close and goal `2.2`: the base forecast is `1.1`, the required
total growth is 2, the daily lift is `2^(1/1) - 1 = 1`, and
re-projecting ADDS the lift to the base rate, giving a final value
`1 * (1 + 0.1 + 1) = 2.1 ≠ 2.2`, off by ~4.5% — far outside the claimed
1e-6 relative tolerance. -/
theorem generateGoalSeekTrajectory_roundtrip_counterexample :
    (generateGoalSeekTrajectory [⟨0, 1 / 10⟩] [⟨0, 1, 1, 0⟩]
        (11 / 5)).getLast? = some ⟨86400000, 0, 21 / 10, 0⟩
      ∧ ¬ (|(21 / 10 : ℝ) - 11 / 5| ≤ 1 / 1000000 * (11 / 5)) := by
  constructor
  · unfold generateGoalSeekTrajectory
    dsimp only [latestTrajectoryPoint, List.foldl]
    rw [if_neg (by norm_num)]
    have hbase : baseForecastOf [⟨0, 1 / 10⟩] 1 1 = 11 / 10 := by
      unfold baseForecastOf
      norm_num [List.filter, List.foldl]
    rw [hbase, if_neg (by norm_num)]
    have hlift : Real.rpow (11 / 5 / (11 / 10)) (1 / ((1 : Int) : ℝ)) - 1
        = 1 := by
      norm_num [Real.rpow_one]
    rw [hlift]
    have hloop : goalSeekLoop [⟨0, 1 / 10⟩] 1 1 0 (Int.toNat 1)
        = [⟨86400000, 0, 21 / 10, 0⟩] := by
      show goalSeekLoop [⟨0, 1 / 10⟩] 1 1 0 1 = _
      unfold goalSeekLoop
      norm_num [rateFor, List.find?, msPerDay]
      unfold goalSeekLoop
      rfl
    rw [hloop]
    norm_num [List.filter, List.getLast?_append]
  · rw [show (21 / 10 : ℝ) - 11 / 5 = -(1 / 10) by norm_num, abs_neg,
      abs_of_pos (by norm_num : (0 : ℝ) < 1 / 10)]
    norm_num

/-- C3 (amended): the round trip is exact precisely in the degenerate
situation where every contributing rate is zero: then the base forecast
equals the starting value, each projected day multiplies by
`1 + requiredDailyLift = (goal/start)^(1/daysToClose)`, and the final
day-zero value is exactly the goal.  (With any nonzero base rate the
additive lift breaks the identity, as the counterexample shows.) -/
theorem generateGoalSeekTrajectory_roundtrip_zero_rates
    (rates : List DailyGrowthRate) (h : NewTrajectoryPoint)
    (t : List NewTrajectoryPoint) (goal : ℝ)
    (hzero : ∀ r ∈ rates, r.rate = 0)
    (hstart : 0 < (latestTrajectoryPoint h t).weightedAmount)
    (hdays : 0 < (latestTrajectoryPoint h t).daysBeforeClose)
    (hgoal : 0 < goal) :
    (generateGoalSeekTrajectory rates (h :: t) goal).getLast?
      = some ⟨(latestTrajectoryPoint h t).snapshotDate
            + msPerDay * (latestTrajectoryPoint h t).daysBeforeClose,
          0, goal, 0⟩ := by
  set L := latestTrajectoryPoint h t with hLdef
  obtain ⟨k, hk⟩ : ∃ k : Nat, L.daysBeforeClose.toNat = k + 1 :=
    ⟨L.daysBeforeClose.toNat - 1, by omega⟩
  have hn : L.daysBeforeClose = ((k + 1 : Nat) : Int) := by omega
  unfold generateGoalSeekTrajectory
  dsimp only
  rw [← hLdef, if_neg (by simp only [not_or, not_le]; exact ⟨hstart, hdays⟩),
    baseForecastOf_zero hzero, if_neg (not_le.mpr hstart)]
  rw [List.filter_cons, if_neg (by simp)]
  rw [List.filter_eq_self.mpr (fun p hp => by
    have := goalSeekLoop_dbc_lt _ _ _ p hp
    rw [hk] at this
    simp only [decide_eq_true_eq]
    omega)]
  rw [hk, List.getLast?_append, goalSeekLoop_zero_getLast hzero]
  have h1pl : (1 : ℝ)
      + (Real.rpow (goal / L.weightedAmount) (1 / (L.daysBeforeClose : ℝ))
        - 1)
      = (goal / L.weightedAmount) ^ ((((k + 1 : Nat) : ℝ))⁻¹ : ℝ) := by
    rw [hn]
    show _ = Real.rpow _ _
    push_cast
    ring_nf
  rw [h1pl]
  rw [Real.rpow_inv_natCast_pow
    (div_nonneg hgoal.le hstart.le) (by omega : k + 1 ≠ 0)]
  rw [mul_comm L.weightedAmount, div_mul_cancel₀ _ (ne_of_gt hstart)]
  simp only [Option.or_some]
  congr 1
  rw [hn]
  push_cast
  ring_nf

/-- C3 (witness): with an empty curve, two days to close, starting
value 1 and goal 9, the projected trajectory ends exactly at 9. -/
theorem generateGoalSeekTrajectory_roundtrip_zero_rates_witness :
    (generateGoalSeekTrajectory [] [⟨0, 2, 1, 0⟩] 9).getLast?
      = some ⟨172800000, 0, 9, 0⟩ := by
  have := generateGoalSeekTrajectory_roundtrip_zero_rates [] ⟨0, 2, 1, 0⟩ []
    9 (by simp) (by norm_num [latestTrajectoryPoint])
    (by norm_num [latestTrajectoryPoint]) (by norm_num)
  simpa [latestTrajectoryPoint, msPerDay] using this

/-- C4 (counterexample): with history
`["2025-04", "2025-05", "2025-06", "2025-07"]`, the month `2025-07` is
at or after the April cutoff, has 3 preceding historical months, a
trajectory point exactly at checkpoint 60 and a nonzero actual closing
value — yet `getBacktestResults` is empty, because the FIRST month ≥
cutoff sits at index 0 < 3 and the implementation aborts the whole
backtest rather than skipping only the early months. -/
theorem getBacktestResults_aborts_counterexample :
    (["2025-04", "2025-05", "2025-06", "2025-07"].getD 3 "" = "2025-07"
        ∧ strLe backtestStartMonth "2025-07" = true
        ∧ (getTrajectoryAtDaysBefore
            ((objGet [("2025-07", [⟨0, 60, 100, 95⟩])] "2025-07").getD [])
            60).isSome
        ∧ ((objGet [("2025-07", (⟨100, 95⟩ : ClosingValue))]
            "2025-07").map (·.weighted)).getD 0 ≠ 0)
      ∧ getBacktestResults ["2025-04", "2025-05", "2025-06", "2025-07"]
          [("2025-07", [⟨0, 60, 100, 95⟩])]
          [("2025-07", ⟨100, 95⟩)] = [] :=
  ⟨by decide, rfl⟩

/-- C4 (amended): a month at or after the April cutoff with at least 3
preceding historical months IS backtested (a record with its month key
and the matched point's `daysBeforeClose` is emitted for every matched
checkpoint with truthy actual) — PROVIDED the first month ≥ cutoff
itself has at least 3 predecessors; otherwise the whole backtest
returns empty, as the counterexample shows. -/
theorem getBacktestResults_tests_eligible_month
    (hist : List String) (agg : MonthData)
    (acts : List (String × ClosingValue)) (startIndex i : Nat)
    (cv : ClosingValue) (day : Int) (sp : AggregatedSnapshot)
    (hfind : hist.findIdx? (fun month => strLe backtestStartMonth month)
      = some startIndex)
    (hs3 : 3 ≤ startIndex) (hsi : startIndex ≤ i) (hil : i < hist.length)
    (hacts : objGet acts (hist.getD i "") = some cv)
    (hcv : cv.weighted ≠ 0)
    (hday : day ∈ backtestTestPoints)
    (hsp : getTrajectoryAtDaysBefore ((objGet agg (hist.getD i "")).getD [])
      day = some sp) :
    ∃ r ∈ getBacktestResults hist agg acts,
      r.month = hist.getD i "" ∧ r.daysBefore = sp.daysBeforeClose := by
  unfold getBacktestResults
  rw [hfind]
  dsimp only
  rw [if_neg (by omega)]
  have hmem : i ∈ List.range' startIndex (hist.length - startIndex) := by
    rw [List.mem_range']
    exact ⟨i - startIndex, by omega, by omega⟩
  have hrec : (⟨hist.getD i "", sp.daysBeforeClose,
      predictLoop (calculateGrowthRates agg ((hist.take i).drop (i - 3))).2
        ((sp.weightedPipeline : ℚ) : ℝ) sp.daysBeforeClose.toNat,
      cv.weighted⟩ : NewBacktestResult)
      ∈ backtestMonthResults hist agg acts i := by
    unfold backtestMonthResults
    rw [if_neg (by
      rw [List.length_drop, List.length_take]
      omega)]
    rw [hacts]
    dsimp only
    rw [if_neg hcv]
    exact List.mem_filterMap.mpr ⟨day, hday, by rw [hsp]; rfl⟩
  exact ⟨_, List.mem_flatMap.mpr ⟨i, hmem, hrec⟩, rfl, rfl⟩

/-- C4 (witness): with history starting in January, the first month ≥
April has index 3 ≥ 3, and April 2025 itself is backtested. -/
theorem getBacktestResults_tests_eligible_month_witness :
    ∃ r ∈ getBacktestResults ["2025-01", "2025-02", "2025-03", "2025-04"]
        [("2025-04", [⟨0, 60, 100, 95⟩])] [("2025-04", ⟨100, 95⟩)],
      r.month = "2025-04" ∧ r.daysBefore = 60 :=
  getBacktestResults_tests_eligible_month
    ["2025-01", "2025-02", "2025-03", "2025-04"]
    [("2025-04", [⟨0, 60, 100, 95⟩])] [("2025-04", ⟨100, 95⟩)]
    3 3 ⟨100, 95⟩ 60 ⟨0, 60, 100, 95⟩
    (by decide) (by decide) (by decide) (by decide) (by decide) (by decide)
    (by decide) (by decide)

/-- Every record emitted for index `i` carries the `i`-th month key. -/
theorem backtestMonthResults_month (hist : List String) (agg : MonthData)
    (acts : List (String × ClosingValue)) (i : Nat) (r : NewBacktestResult)
    (hr : r ∈ backtestMonthResults hist agg acts i) :
    r.month = hist.getD i "" := by
  unfold backtestMonthResults at hr
  dsimp only at hr
  split at hr
  · exact absurd hr (by simp)
  · split at hr
    · exact absurd hr (by simp)
    · split at hr
      · exact absurd hr (by simp)
      · rcases List.mem_filterMap.mp hr with ⟨day, _, hd⟩
        rcases Option.map_eq_some'.mp hd with ⟨sp, _, rfl⟩
        rfl

/-- The growth-rate curves depend on the aggregate map only through
the lookups of the given training months. -/
theorem calculateGrowthRates_congr (agg₁ agg₂ : MonthData)
    (months : List String)
    (h : ∀ m ∈ months, objGet agg₁ m = objGet agg₂ m) :
    calculateGrowthRates agg₁ months = calculateGrowthRates agg₂ months := by
  unfold calculateGrowthRates
  have hc : monthContribs agg₁ months = monthContribs agg₂ months := by
    unfold monthContribs
    exact List.flatMap_congr (fun m hm => by rw [h m hm])
  rw [hc]

/-- A `flatMap` over distinct indices where all pieces but one are
empty collapses to that piece. -/
theorem flatMap_eq_of_single {β : Type} (l : List Nat) (f : Nat → List β)
    (i₀ : Nat) (hmem : i₀ ∈ l) (hnodup : l.Nodup)
    (hz : ∀ j ∈ l, j ≠ i₀ → f j = []) : l.flatMap f = f i₀ := by
  induction l with
  | nil => cases hmem
  | cons a l ih =>
      rcases List.nodup_cons.mp hnodup with ⟨ha, hnd⟩
      rcases List.mem_cons.mp hmem with rfl | hmem'
      · have hrest : l.flatMap f = [] :=
          List.flatMap_eq_nil_iff.mpr (fun j hj =>
            hz j (List.mem_cons_of_mem _ hj) (fun he => ha (he ▸ hj)))
        simp [List.flatMap_cons, hrest]
      · have ha' : a ≠ i₀ := fun he => ha (he ▸ hmem')
        simp only [List.flatMap_cons, hz a (List.mem_cons_self a l) ha',
          List.nil_append]
        exact ih hmem' hnd (fun j hj hne =>
          hz j (List.mem_cons_of_mem a hj) hne)

/-- The key at the junction of `pre ++ tm :: suf` is `tm`. -/
theorem getD_append_middle (pre suf : List String) (tm : String) :
    (pre ++ tm :: suf).getD pre.length "" = tm := by
  rw [List.getD_eq_getElem?_getD,
    List.getElem?_append_right (Nat.le_refl pre.length)]
  simp

/-- Any other in-bounds position of `pre ++ tm :: suf` holds a key
different from `tm`, provided `tm` occurs in neither side. -/
theorem getD_append_middle_ne (pre suf : List String) (tm : String)
    (hpre : tm ∉ pre) (hsuf : tm ∉ suf) (j : Nat)
    (hj : j < (pre ++ tm :: suf).length) (hne : j ≠ pre.length) :
    (pre ++ tm :: suf).getD j "" ≠ tm := by
  rw [List.getD_eq_getElem?_getD]
  rcases Nat.lt_or_ge j pre.length with hlt | hge
  · rw [List.getElem?_append_left hlt, List.getElem?_eq_getElem hlt,
      Option.getD_some]
    exact fun he => hpre (he ▸ List.getElem_mem hlt)
  · rw [List.getElem?_append_right hge,
      show j - pre.length = (j - pre.length - 1) + 1 by omega,
      List.getElem?_cons_succ]
    have hjs : j - pre.length - 1 < suf.length := by
      simp only [List.length_append, List.length_cons] at hj
      omega
    rw [List.getElem?_eq_getElem hjs, Option.getD_some]
    exact fun he => hsuf (he ▸ List.getElem_mem hjs)

/-- Restricted to the test month's records, the whole backtest reduces
to the single loop iteration at the test month's index. -/
theorem getBacktestResults_filter_test (pre suf : List String)
    (tm : String) (agg : MonthData) (acts : List (String × ClosingValue))
    (s : Nat)
    (hfind : (pre ++ [tm]).findIdx? (fun m => strLe backtestStartMonth m)
      = some s)
    (hs3 : 3 ≤ s) (hsle : s ≤ pre.length)
    (hpre : tm ∉ pre) (hsuf : tm ∉ suf) :
    (getBacktestResults (pre ++ tm :: suf) agg acts).filter
        (fun r => r.month = tm)
      = (backtestMonthResults (pre ++ tm :: suf) agg acts
          pre.length).filter (fun r => r.month = tm) := by
  have hlen : (pre ++ tm :: suf).length = pre.length + suf.length + 1 := by
    simp only [List.length_append, List.length_cons]
    omega
  have hfind2 : (pre ++ tm :: suf).findIdx?
      (fun m => strLe backtestStartMonth m) = some s := by
    rw [show pre ++ tm :: suf = (pre ++ [tm]) ++ suf by simp,
      List.findIdx?_append, hfind]
    rfl
  unfold getBacktestResults
  rw [hfind2]
  dsimp only
  rw [if_neg (by omega), List.filter_flatMap]
  apply flatMap_eq_of_single _ _ pre.length
  · rw [List.mem_range']
    exact ⟨pre.length - s, by omega, by omega⟩
  · exact List.nodup_range' s _
  · intro j hj hne
    rw [List.mem_range'] at hj
    rcases hj with ⟨k, hk, rfl⟩
    refine List.filter_eq_nil_iff.mpr (fun r hr hp => ?_)
    have hmonth := backtestMonthResults_month _ _ _ _ r hr
    have hlt : s + 1 * k < (pre ++ tm :: suf).length := by omega
    exact getD_append_middle_ne pre suf tm hpre hsuf _ hlt hne
      (by rw [← hmonth]; exact of_decide_eq_true hp)

/-- C5: backtest predictions have no lookahead.  Fix a chronological
history `pre ++ [tm]` extended by arbitrary later months; for two
datasets that agree on the 3 training months immediately preceding the
test month `tm` and on `tm`'s own trajectory, but differ arbitrarily in
the later months (including their month keys and all data) and in
`tm`'s closing value (both truthy), the `(daysBefore, prediction)`
pairs recorded for `tm` are identical. -/
theorem backtestPredictions_no_lookahead
    (pre suf₁ suf₂ : List String) (tm : String) (agg₁ agg₂ : MonthData)
    (acts₁ acts₂ : List (String × ClosingValue)) (cv₁ cv₂ : ClosingValue)
    (s : Nat)
    (hpre : tm ∉ pre) (hsuf₁ : tm ∉ suf₁) (hsuf₂ : tm ∉ suf₂)
    (hfind : (pre ++ [tm]).findIdx? (fun m => strLe backtestStartMonth m)
      = some s)
    (hs3 : 3 ≤ s) (hsle : s ≤ pre.length)
    (hagg : ∀ m ∈ pre.drop (pre.length - 3), objGet agg₁ m = objGet agg₂ m)
    (htest : objGet agg₁ tm = objGet agg₂ tm)
    (hacts₁ : objGet acts₁ tm = some cv₁)
    (hacts₂ : objGet acts₂ tm = some cv₂)
    (hcv₁ : cv₁.weighted ≠ 0) (hcv₂ : cv₂.weighted ≠ 0) :
    ((getBacktestResults (pre ++ tm :: suf₁) agg₁ acts₁).filter
        (fun r => r.month = tm)).map (fun r => (r.daysBefore, r.prediction))
      = ((getBacktestResults (pre ++ tm :: suf₂) agg₂ acts₂).filter
        (fun r => r.month = tm)).map
          (fun r => (r.daysBefore, r.prediction)) := by
  have key : ∀ (suf : List String) (agg : MonthData)
      (acts : List (String × ClosingValue)) (cv : ClosingValue),
      objGet acts tm = some cv → cv.weighted ≠ 0 →
      ((backtestMonthResults (pre ++ tm :: suf) agg acts
          pre.length).filter (fun r => r.month = tm)).map
        (fun r => (r.daysBefore, r.prediction))
      = backtestTestPoints.filterMap (fun day =>
          (getTrajectoryAtDaysBefore ((objGet agg tm).getD []) day).map
            (fun sp => (sp.daysBeforeClose,
              predictLoop
                (calculateGrowthRates agg (pre.drop (pre.length - 3))).2
                ((sp.weightedPipeline : ℚ) : ℝ)
                sp.daysBeforeClose.toNat))) := by
    intro suf agg acts cv hacts hcv
    unfold backtestMonthResults
    rw [getD_append_middle, List.take_left' rfl]
    rw [if_neg (by rw [List.length_drop]; omega)]
    rw [hacts]
    dsimp only
    rw [if_neg hcv]
    rw [List.filter_eq_self.mpr (fun r hr => by
      rcases List.mem_filterMap.mp hr with ⟨day, _, hd⟩
      rcases Option.map_eq_some'.mp hd with ⟨sp, _, rfl⟩
      exact decide_eq_true rfl)]
    rw [List.map_filterMap]
    apply List.filterMap_congr
    intro day _
    cases getTrajectoryAtDaysBefore ((objGet agg tm).getD []) day <;> rfl
  rw [getBacktestResults_filter_test pre suf₁ tm agg₁ acts₁ s hfind hs3
      hsle hpre hsuf₁,
    getBacktestResults_filter_test pre suf₂ tm agg₂ acts₂ s hfind hs3
      hsle hpre hsuf₂,
    key suf₁ agg₁ acts₁ cv₁ hacts₁ hcv₁,
    key suf₂ agg₂ acts₂ cv₂ hacts₂ hcv₂,
    calculateGrowthRates_congr agg₁ agg₂ _ hagg, htest]

/-- C5 (witness): mutating the month after the test month and the test
month's closing value leaves the recorded predictions untouched. -/
theorem backtestPredictions_no_lookahead_witness :
    ((getBacktestResults
          ["2025-01", "2025-02", "2025-03", "2025-04", "2025-05"]
          [("2025-05", [⟨0, 60, 100, 95⟩])] [("2025-05", ⟨1, 1⟩)]).filter
        (fun r => r.month = "2025-05")).map
          (fun r => (r.daysBefore, r.prediction))
      = ((getBacktestResults
          ["2025-01", "2025-02", "2025-03", "2025-04", "2025-05", "2025-06"]
          [("2025-05", [⟨0, 60, 100, 95⟩]), ("2025-06", [⟨0, 1, 7, 7⟩])]
          [("2025-05", ⟨2, 2⟩), ("2025-06", ⟨3, 3⟩)]).filter
        (fun r => r.month = "2025-05")).map
          (fun r => (r.daysBefore, r.prediction)) :=
  backtestPredictions_no_lookahead
    ["2025-01", "2025-02", "2025-03", "2025-04"] [] ["2025-06"] "2025-05"
    [("2025-05", [⟨0, 60, 100, 95⟩])]
    [("2025-05", [⟨0, 60, 100, 95⟩]), ("2025-06", [⟨0, 1, 7, 7⟩])]
    [("2025-05", ⟨1, 1⟩)] [("2025-05", ⟨2, 2⟩), ("2025-06", ⟨3, 3⟩)]
    ⟨1, 1⟩ ⟨2, 2⟩ 3
    (by decide) (by decide) (by decide) (by decide) (by decide) (by decide)
    (by decide) (by decide) (by decide) (by decide) (by decide) (by decide)

end Forecaster
